import Mathlib

/-
Verification of the provider adapter layer of the llm-provider-tester
repository (src/lib/api.ts).

The two exported operations, `validateApiKey` and `sendPromptToLLM`, each
perform at most one `fetch` inside a single try/catch and return a result
record.  We embed them as pure functions of their string arguments plus a
`FetchOutcome` oracle describing how the single network call behaves
(throwing, or responding with an ok flag and a JSON-decoded body that may
itself fail to decode).  Each function also returns the list of requests it
issued, so that claims about what is sent on the wire (method, URL, headers,
body) and about the absence of network calls can be stated.

JavaScript runtime details that the code relies on are modelled explicitly:
JSON values (with numbers as rationals), property access that throws a
TypeError on null/undefined, optional chaining, truthiness, and the
template-literal string conversion.
-/

set_option maxHeartbeats 1000000

namespace LlmApi

/-- A JavaScript value, as produced by decoding a JSON response body
(plus `undefined`, which arises from absent-property access).  Numbers are
modelled as rationals; this is exact for every numeric literal appearing in
the source (0.7, 1, 1000). -/
inductive JsValue where
  | null
  | undefined
  | bool (b : Bool)
  | num (q : Rat)
  | str (s : String)
  | arr (elems : List JsValue)
  | obj (fields : List (String × JsValue))

/-- A thrown JavaScript exception, as seen by a catch block that only asks
`instanceof Error` and reads `.message`: either an `Error` carrying a
message, or some thrown non-`Error` value. -/
inductive JsError where
  | error (message : String)
  | nonError
deriving DecidableEq

/-- Property access `v.k`: throws a TypeError on `null`/`undefined`,
returns `undefined` for an absent field or for access on a primitive. -/
def JsValue.get : JsValue → String → Except JsError JsValue
  | .undefined, _ => .error (.error "Cannot read properties of undefined")
  | .null, _ => .error (.error "Cannot read properties of null")
  | .obj fields, k => .ok ((fields.lookup k).getD .undefined)
  | _, _ => .ok .undefined

/-- Index access `v[i]` for a numeric literal index: throws a TypeError on
`null`/`undefined`, reads the i-th element of an array (or the field named
by the index on an object), `undefined` otherwise. -/
def JsValue.idx : JsValue → Nat → Except JsError JsValue
  | .undefined, _ => .error (.error "Cannot read properties of undefined")
  | .null, _ => .error (.error "Cannot read properties of null")
  | .arr elems, i => .ok ((elems.get? i).getD .undefined)
  | .obj fields, i => .ok ((fields.lookup (toString i)).getD .undefined)
  | _, _ => .ok .undefined

/-- JavaScript truthiness, driving the `x || fallback` defaulting in the
error-detail extraction. -/
def JsValue.truthy : JsValue → Bool
  | .null => false
  | .undefined => false
  | .bool b => b
  | .num q => q != 0
  | .str s => s != ""
  | .arr _ => true
  | .obj _ => true

mutual

/-- String conversion of a value interpolated into a template literal.
Arrays render as the comma-join of their elements as in
`Array.prototype.toString`; rationals print via `toString`, which agrees
with JavaScript on integers (non-integer numbers are never interpolated by
the source). -/
def JsValue.toTemplateString : JsValue → String
  | .null => "null"
  | .undefined => "undefined"
  | .bool true => "true"
  | .bool false => "false"
  | .num q => toString q
  | .str s => s
  | .arr elems => JsValue.joinElems elems
  | .obj _ => "[object Object]"

/-- Comma-join of array elements, rendering `null` and `undefined`
elements as empty as `Array.prototype.join` does. -/
def JsValue.joinElems : List JsValue → String
  | [] => ""
  | [v] => JsValue.elemString v
  | v :: rest => JsValue.elemString v ++ "," ++ JsValue.joinElems rest

/-- How a single array element renders inside `Array.prototype.join`. -/
def JsValue.elemString : JsValue → String
  | .null => ""
  | .undefined => ""
  | v => JsValue.toTemplateString v

end

/-- The `trim()` method of JavaScript strings: strip leading and trailing
whitespace.  Defined by structural recursion over the character list so
that concrete instances evaluate inside the kernel. -/
def jsTrim (s : String) : String :=
  String.mk ((s.data.dropWhile Char.isWhitespace).reverse.dropWhile Char.isWhitespace).reverse

/-- The defaulting `m || fallback` (the fallback being the Unknown error
literal) applied to the optionally-chained
message value, as interpolated into the template literal: a truthy message
renders via the template conversion, a falsy one falls back to the
literal. -/
def jsOrUnknownError (m : JsValue) : String :=
  if m.truthy then m.toTemplateString else "Unknown error"

/-- Detail extraction from a parsed error body, mirroring the expression
repeated at every non-2xx site of the source:
`error.error?.message || fallback`.  The outer access
`error.error` can throw (when the parsed body is null); the optional chain
then yields `undefined` without throwing when the `error` field is
null/undefined; a falsy message falls back to the literal. -/
def errorBodyDetail (errVal : JsValue) : Except JsError String :=
  match errVal.get "error" with
  | .error e => .error e
  | .ok f =>
    match f with
    | .null => .ok (jsOrUnknownError .undefined)
    | .undefined => .ok (jsOrUnknownError .undefined)
    | _ =>
      match f.get "message" with
      | .error e => .error e
      | .ok m => .ok (jsOrUnknownError m)

/-- `await response.json()` followed by the detail extraction: decoding the
body may itself throw (malformed JSON), and the extraction may throw. -/
def responseErrorDetail (json : Except JsError JsValue) : Except JsError String :=
  json.bind errorBodyDetail

/-- One outbound HTTP request as built by a `fetch` call: URL, method,
headers in source order, and the JSON body passed to `JSON.stringify`
(`none` when the fetch has no body). -/
structure Request where
  url : String
  method : String
  headers : List (String × String)
  body : Option JsValue

/-- Behaviour of the single network call an invocation makes: either
`fetch` itself throws, or it yields a response with an `ok` flag
(2xx status) and a body whose JSON decoding yields a value or throws. -/
inductive FetchOutcome where
  | throw (e : JsError)
  | response (ok : Bool) (json : Except JsError JsValue)

/-- The `ApiResponse` result shape of src/lib/api.ts: a success flag, an
optional message, and an optional data payload. -/
structure ApiResponse where
  success : Bool
  message : Option String := none
  data : Option JsValue := none

/-- The detail string the catch blocks build from a caught exception:
`error instanceof Error ? error.message : fallback`, the fallback being
the Unknown error literal. -/
def JsError.detail : JsError → String
  | .error m => m
  | .nonError => "Unknown error"

/-- The validator catch block:
`{ success: false, message: Error validating API key: <detail> }`. -/
def validateCatch (e : JsError) : ApiResponse :=
  { success := false, message := some ("Error validating API key: " ++ e.detail) }

/-- The dispatcher catch block:
`{ success: false, message: Error sending prompt: <detail> }`. -/
def sendCatch (e : JsError) : ApiResponse :=
  { success := false, message := some ("Error sending prompt: " ++ e.detail) }

/-- The fetch of the OpenAI validation branch: GET against the
model-listing endpoint with the key as a bearer token. -/
def openaiModelsRequest (apiKey : String) : Request :=
  { url := "https://api.openai.com/v1/models"
    method := "GET"
    headers := [("Authorization", "Bearer " ++ apiKey),
                ("Content-Type", "application/json")]
    body := none }

/-- The fetch of the Anthropic validation branch: POST to the messages
endpoint, key in the x-api-key header, one-token probe message. -/
def anthropicProbeRequest (apiKey : String) : Request :=
  { url := "https://api.anthropic.com/v1/messages"
    method := "POST"
    headers := [("x-api-key", apiKey),
                ("anthropic-version", "2023-06-01"),
                ("Content-Type", "application/json")]
    body := some (.obj
      [("model", .str "claude-3-5-haiku-20241022"),
       ("max_tokens", .num 1),
       ("messages", .arr [.obj [("role", .str "user"), ("content", .str "Hello")]])]) }

/-- The fetch of the Gemini validation branch: GET against the
model-listing endpoint with the key as a query parameter. -/
def geminiModelsRequest (apiKey : String) : Request :=
  { url := "https://generativelanguage.googleapis.com/v1beta/models?key=" ++ apiKey
    method := "GET"
    headers := [("Content-Type", "application/json")]
    body := none }

/-- `validateApiKey` from src/lib/api.ts, lines 11-91, as a function of the
provider string, the API key, and the behaviour of the (at most one)
network call.  Returns the result together with the list of requests
issued. -/
def validateApiKey (provider apiKey : String) (net : FetchOutcome) :
    ApiResponse × List Request :=
  if jsTrim apiKey = "" then
    ({ success := false, message := some "API key cannot be empty" }, [])
  else if provider = "openai" then
    let req := openaiModelsRequest apiKey
    match net with
    | .throw e => (validateCatch e, [req])
    | .response ok json =>
      if ok then
        ({ success := true, message := some "OpenAI API key is valid" }, [req])
      else
        match responseErrorDetail json with
        | .ok d =>
            ({ success := false, message := some ("Invalid OpenAI API key: " ++ d) }, [req])
        | .error e => (validateCatch e, [req])
  else if provider = "anthropic" then
    let req := anthropicProbeRequest apiKey
    match net with
    | .throw e => (validateCatch e, [req])
    | .response ok json =>
      if ok then
        ({ success := true, message := some "Anthropic API key is valid" }, [req])
      else
        match responseErrorDetail json with
        | .ok d =>
            ({ success := false, message := some ("Invalid Anthropic API key: " ++ d) }, [req])
        | .error e => (validateCatch e, [req])
  else if provider = "gemini" then
    let req := geminiModelsRequest apiKey
    match net with
    | .throw e => (validateCatch e, [req])
    | .response ok json =>
      if ok then
        ({ success := true, message := some "Gemini API key is valid" }, [req])
      else
        match responseErrorDetail json with
        | .ok d =>
            ({ success := false, message := some ("Invalid Gemini API key: " ++ d) }, [req])
        | .error e => (validateCatch e, [req])
  else
    ({ success := false, message := some "Unknown provider" }, [])

/-- The success-path extraction of the OpenAI dispatch branch:
`data.choices[0].message.content`. -/
def openaiExtract (data : JsValue) : Except JsError JsValue := do
  let choices ← data.get "choices"
  let c0 ← choices.idx 0
  let msg ← c0.get "message"
  msg.get "content"

/-- The success-path extraction of the Anthropic dispatch branch:
`data.content[0].text`. -/
def anthropicExtract (data : JsValue) : Except JsError JsValue := do
  let content ← data.get "content"
  let c0 ← content.idx 0
  c0.get "text"

/-- The success-path extraction of the Gemini dispatch branch:
`data.candidates[0].content.parts[0].text`. -/
def geminiExtract (data : JsValue) : Except JsError JsValue := do
  let cands ← data.get "candidates"
  let c0 ← cands.idx 0
  let content ← c0.get "content"
  let parts ← content.get "parts"
  let p0 ← parts.idx 0
  p0.get "text"

/-- The fetch of the OpenAI dispatch branch: POST to the chat-completions
endpoint with bearer auth, the model, one user message with the raw
prompt, and temperature 0.7 (and nothing else in the body). -/
def openaiChatRequest (model apiKey prompt : String) : Request :=
  { url := "https://api.openai.com/v1/chat/completions"
    method := "POST"
    headers := [("Authorization", "Bearer " ++ apiKey),
                ("Content-Type", "application/json")]
    body := some (.obj
      [("model", .str model),
       ("messages", .arr [.obj [("role", .str "user"), ("content", .str prompt)]]),
       ("temperature", .num (7 / 10))]) }

/-- The fetch of the Anthropic dispatch branch: POST to the messages
endpoint with the x-api-key header, the model, max_tokens 1000 and one
user message with the raw prompt. -/
def anthropicMessagesRequest (model apiKey prompt : String) : Request :=
  { url := "https://api.anthropic.com/v1/messages"
    method := "POST"
    headers := [("x-api-key", apiKey),
                ("anthropic-version", "2023-06-01"),
                ("Content-Type", "application/json")]
    body := some (.obj
      [("model", .str model),
       ("max_tokens", .num 1000),
       ("messages", .arr [.obj [("role", .str "user"), ("content", .str prompt)]])]) }

/-- The fetch of the Gemini dispatch branch: POST to the model-specific
generate-content endpoint (model in the URL path, key as a query
parameter), contents/parts/text body and a generationConfig with
temperature 0.7 and maxOutputTokens 1000. -/
def geminiGenerateRequest (model apiKey prompt : String) : Request :=
  { url := "https://generativelanguage.googleapis.com/v1beta/models/" ++ model
             ++ ":generateContent?key=" ++ apiKey
    method := "POST"
    headers := [("Content-Type", "application/json")]
    body := some (.obj
      [("contents", .arr [.obj [("parts", .arr [.obj [("text", .str prompt)]])]]),
       ("generationConfig", .obj
         [("temperature", .num (7 / 10)),
          ("maxOutputTokens", .num 1000)])]) }

/-- `sendPromptToLLM` from src/lib/api.ts, lines 94-212, as a function of
the provider, model, API key and prompt strings and the behaviour of the
(at most one) network call.  Returns the result together with the list of
requests issued. -/
def sendPromptToLLM (provider model apiKey prompt : String) (net : FetchOutcome) :
    ApiResponse × List Request :=
  if jsTrim apiKey = "" then
    ({ success := false, message := some "API key is required" }, [])
  else if jsTrim prompt = "" then
    ({ success := false, message := some "Prompt cannot be empty" }, [])
  else if provider = "openai" then
    let req := openaiChatRequest model apiKey prompt
    match net with
    | .throw e => (sendCatch e, [req])
    | .response ok json =>
      if ok then
        match json.bind openaiExtract with
        | .ok v => ({ success := true, data := some v }, [req])
        | .error e => (sendCatch e, [req])
      else
        match responseErrorDetail json with
        | .ok d =>
            ({ success := false, message := some ("OpenAI API error: " ++ d) }, [req])
        | .error e => (sendCatch e, [req])
  else if provider = "anthropic" then
    let req := anthropicMessagesRequest model apiKey prompt
    match net with
    | .throw e => (sendCatch e, [req])
    | .response ok json =>
      if ok then
        match json.bind anthropicExtract with
        | .ok v => ({ success := true, data := some v }, [req])
        | .error e => (sendCatch e, [req])
      else
        match responseErrorDetail json with
        | .ok d =>
            ({ success := false, message := some ("Anthropic API error: " ++ d) }, [req])
        | .error e => (sendCatch e, [req])
  else if provider = "gemini" then
    let req := geminiGenerateRequest model apiKey prompt
    match net with
    | .throw e => (sendCatch e, [req])
    | .response ok json =>
      if ok then
        match json.bind geminiExtract with
        | .ok v => ({ success := true, data := some v }, [req])
        | .error e => (sendCatch e, [req])
      else
        match responseErrorDetail json with
        | .ok d =>
            ({ success := false, message := some ("Gemini API error: " ++ d) }, [req])
        | .error e => (sendCatch e, [req])
  else
    ({ success := false, message := some "Unknown provider" }, [])

/-! Shared evaluation lemmas. -/

theorem toTemplateString_str (s : String) : JsValue.toTemplateString (.str s) = s := by
  simp [JsValue.toTemplateString]

theorem jsOrUnknownError_str (s : String) :
    jsOrUnknownError (.str s) = if s = "" then "Unknown error" else s := by
  by_cases h : s = "" <;>
    simp [jsOrUnknownError, JsValue.truthy, toTemplateString_str, h]

theorem responseErrorDetail_ok (v : JsValue) :
    responseErrorDetail (Except.ok v) = errorBodyDetail v := rfl

theorem errorBodyDetail_message_field (m : String) :
    errorBodyDetail (JsValue.obj [("error", JsValue.obj [("message", JsValue.str m)])]) =
      Except.ok (if m = "" then "Unknown error" else m) := by
  have h : errorBodyDetail (JsValue.obj [("error", JsValue.obj [("message", JsValue.str m)])]) =
      Except.ok (jsOrUnknownError (.str m)) := rfl
  rw [h, jsOrUnknownError_str]

theorem errorBodyDetail_message_absent :
    errorBodyDetail (JsValue.obj [("error", JsValue.obj [])]) = Except.ok "Unknown error" := rfl

theorem except_ok_bind {ε α β : Type} (a : α) (f : α → Except ε β) :
    (Except.ok a : Except ε α).bind f = f a := rfl

theorem append_left_ne_empty (s t : String) (h : s ≠ "") : s ++ t ≠ "" := by
  intro hc
  apply h
  have hl := congrArg String.length hc
  rw [String.length_append] at hl
  have h0 : ("" : String).length = 0 := rfl
  have hs : s.length = 0 := by omega
  cases s with
  | mk data =>
    cases data with
    | nil => rfl
    | cons c cs => simp [String.length] at hs

/-! Branch-unfolding lemmas: once the input checks pass and the provider is
fixed, each operation is the corresponding adapter applied to the network
outcome. -/

theorem validateApiKey_openai_eq (apiKey : String) (net : FetchOutcome)
    (hk : jsTrim apiKey ≠ "") :
    validateApiKey "openai" apiKey net =
      match net with
      | .throw e => (validateCatch e, [openaiModelsRequest apiKey])
      | .response ok json =>
        if ok then
          ({ success := true, message := some "OpenAI API key is valid" },
            [openaiModelsRequest apiKey])
        else
          match responseErrorDetail json with
          | .ok d =>
              ({ success := false, message := some ("Invalid OpenAI API key: " ++ d) },
                [openaiModelsRequest apiKey])
          | .error e => (validateCatch e, [openaiModelsRequest apiKey]) := by
  unfold validateApiKey
  rw [if_neg hk, if_pos rfl]

theorem validateApiKey_anthropic_eq (apiKey : String) (net : FetchOutcome)
    (hk : jsTrim apiKey ≠ "") :
    validateApiKey "anthropic" apiKey net =
      match net with
      | .throw e => (validateCatch e, [anthropicProbeRequest apiKey])
      | .response ok json =>
        if ok then
          ({ success := true, message := some "Anthropic API key is valid" },
            [anthropicProbeRequest apiKey])
        else
          match responseErrorDetail json with
          | .ok d =>
              ({ success := false, message := some ("Invalid Anthropic API key: " ++ d) },
                [anthropicProbeRequest apiKey])
          | .error e => (validateCatch e, [anthropicProbeRequest apiKey]) := by
  unfold validateApiKey
  rw [if_neg hk, if_neg (by decide : ¬ ("anthropic" : String) = "openai"), if_pos rfl]

theorem validateApiKey_gemini_eq (apiKey : String) (net : FetchOutcome)
    (hk : jsTrim apiKey ≠ "") :
    validateApiKey "gemini" apiKey net =
      match net with
      | .throw e => (validateCatch e, [geminiModelsRequest apiKey])
      | .response ok json =>
        if ok then
          ({ success := true, message := some "Gemini API key is valid" },
            [geminiModelsRequest apiKey])
        else
          match responseErrorDetail json with
          | .ok d =>
              ({ success := false, message := some ("Invalid Gemini API key: " ++ d) },
                [geminiModelsRequest apiKey])
          | .error e => (validateCatch e, [geminiModelsRequest apiKey]) := by
  unfold validateApiKey
  rw [if_neg hk, if_neg (by decide : ¬ ("gemini" : String) = "openai"),
    if_neg (by decide : ¬ ("gemini" : String) = "anthropic"), if_pos rfl]

theorem sendPromptToLLM_openai_eq (model apiKey prompt : String) (net : FetchOutcome)
    (hk : jsTrim apiKey ≠ "") (hp : jsTrim prompt ≠ "") :
    sendPromptToLLM "openai" model apiKey prompt net =
      match net with
      | .throw e => (sendCatch e, [openaiChatRequest model apiKey prompt])
      | .response ok json =>
        if ok then
          match json.bind openaiExtract with
          | .ok v =>
              ({ success := true, data := some v }, [openaiChatRequest model apiKey prompt])
          | .error e => (sendCatch e, [openaiChatRequest model apiKey prompt])
        else
          match responseErrorDetail json with
          | .ok d =>
              ({ success := false, message := some ("OpenAI API error: " ++ d) },
                [openaiChatRequest model apiKey prompt])
          | .error e => (sendCatch e, [openaiChatRequest model apiKey prompt]) := by
  unfold sendPromptToLLM
  rw [if_neg hk, if_neg hp, if_pos rfl]

theorem sendPromptToLLM_anthropic_eq (model apiKey prompt : String) (net : FetchOutcome)
    (hk : jsTrim apiKey ≠ "") (hp : jsTrim prompt ≠ "") :
    sendPromptToLLM "anthropic" model apiKey prompt net =
      match net with
      | .throw e => (sendCatch e, [anthropicMessagesRequest model apiKey prompt])
      | .response ok json =>
        if ok then
          match json.bind anthropicExtract with
          | .ok v =>
              ({ success := true, data := some v },
                [anthropicMessagesRequest model apiKey prompt])
          | .error e => (sendCatch e, [anthropicMessagesRequest model apiKey prompt])
        else
          match responseErrorDetail json with
          | .ok d =>
              ({ success := false, message := some ("Anthropic API error: " ++ d) },
                [anthropicMessagesRequest model apiKey prompt])
          | .error e => (sendCatch e, [anthropicMessagesRequest model apiKey prompt]) := by
  unfold sendPromptToLLM
  rw [if_neg hk, if_neg hp, if_neg (by decide : ¬ ("anthropic" : String) = "openai"),
    if_pos rfl]

theorem sendPromptToLLM_gemini_eq (model apiKey prompt : String) (net : FetchOutcome)
    (hk : jsTrim apiKey ≠ "") (hp : jsTrim prompt ≠ "") :
    sendPromptToLLM "gemini" model apiKey prompt net =
      match net with
      | .throw e => (sendCatch e, [geminiGenerateRequest model apiKey prompt])
      | .response ok json =>
        if ok then
          match json.bind geminiExtract with
          | .ok v =>
              ({ success := true, data := some v },
                [geminiGenerateRequest model apiKey prompt])
          | .error e => (sendCatch e, [geminiGenerateRequest model apiKey prompt])
        else
          match responseErrorDetail json with
          | .ok d =>
              ({ success := false, message := some ("Gemini API error: " ++ d) },
                [geminiGenerateRequest model apiKey prompt])
          | .error e => (sendCatch e, [geminiGenerateRequest model apiKey prompt]) := by
  unfold sendPromptToLLM
  rw [if_neg hk, if_neg hp, if_neg (by decide : ¬ ("gemini" : String) = "openai"),
    if_neg (by decide : ¬ ("gemini" : String) = "anthropic"), if_pos rfl]

/-! Claims. -/

/-- C6: for every provider value, an API key that trims to the empty
string makes validateApiKey return success=false with message
"API key cannot be empty", and no network request is issued (the returned
request list is empty), whatever the network would have done. -/
theorem validate_empty_key (provider apiKey : String) (net : FetchOutcome)
    (h : jsTrim apiKey = "") :
    validateApiKey provider apiKey net =
      ({ success := false, message := some "API key cannot be empty", data := none }, []) := by
  unfold validateApiKey
  rw [if_pos h]

/-- Witness for C6 at provider openai with a whitespace-only key and a
throwing network. -/
theorem validate_empty_key_witness :
    validateApiKey "openai" "   " (FetchOutcome.throw JsError.nonError) =
      ({ success := false, message := some "API key cannot be empty", data := none }, []) :=
  validate_empty_key "openai" "   " (FetchOutcome.throw JsError.nonError) (by decide)

/-- C5: for every provider, model, credential and prompt, the dispatcher
returns the key-required failure when the credential trims to empty
(whatever the prompt is, so the credential check comes first), and the
empty-prompt failure when the credential is non-empty but the prompt trims
to empty; in both cases the request list is empty, so no network call was
made. -/
theorem dispatch_input_checks (provider model apiKey prompt : String) (net : FetchOutcome) :
    (jsTrim apiKey = "" →
      sendPromptToLLM provider model apiKey prompt net =
        ({ success := false, message := some "API key is required", data := none }, []))
    ∧ (jsTrim apiKey ≠ "" → jsTrim prompt = "" →
      sendPromptToLLM provider model apiKey prompt net =
        ({ success := false, message := some "Prompt cannot be empty", data := none }, [])) := by
  constructor
  · intro h
    unfold sendPromptToLLM
    rw [if_pos h]
  · intro h1 h2
    unfold sendPromptToLLM
    rw [if_neg h1, if_pos h2]

/-- Witness for C5: an empty key (with a non-empty prompt) reports the key
error, and a non-empty key with a whitespace prompt reports the prompt
error. -/
theorem dispatch_input_checks_witness :
    sendPromptToLLM "openai" "gpt-4" "" "Hello" (FetchOutcome.throw JsError.nonError) =
      ({ success := false, message := some "API key is required", data := none }, [])
    ∧ sendPromptToLLM "openai" "gpt-4" "sk-key" "  " (FetchOutcome.throw JsError.nonError) =
      ({ success := false, message := some "Prompt cannot be empty", data := none }, []) :=
  ⟨(dispatch_input_checks "openai" "gpt-4" "" "Hello"
      (FetchOutcome.throw JsError.nonError)).1 (by decide),
   (dispatch_input_checks "openai" "gpt-4" "sk-key" "  "
      (FetchOutcome.throw JsError.nonError)).2 (by decide) (by decide)⟩

/-- C7: for a provider value that is none of openai, anthropic and gemini,
validateApiKey (with a non-empty key) and sendPromptToLLM (with non-empty
key and prompt) both return the Unknown provider failure with no request
issued; and in sendPromptToLLM the credential check precedes the provider
check, so an unrecognized provider with an empty credential reports the
credential error instead. -/
theorem unknown_provider_handling (provider model apiKey prompt : String) (net : FetchOutcome)
    (h1 : provider ≠ "openai") (h2 : provider ≠ "anthropic") (h3 : provider ≠ "gemini") :
    (jsTrim apiKey ≠ "" →
      validateApiKey provider apiKey net =
        ({ success := false, message := some "Unknown provider", data := none }, []))
    ∧ (jsTrim apiKey ≠ "" → jsTrim prompt ≠ "" →
      sendPromptToLLM provider model apiKey prompt net =
        ({ success := false, message := some "Unknown provider", data := none }, []))
    ∧ (jsTrim apiKey = "" →
      sendPromptToLLM provider model apiKey prompt net =
        ({ success := false, message := some "API key is required", data := none }, [])) := by
  refine ⟨fun hk => ?_, fun hk hp => ?_, fun hk => ?_⟩
  · unfold validateApiKey
    rw [if_neg hk, if_neg h1, if_neg h2, if_neg h3]
  · unfold sendPromptToLLM
    rw [if_neg hk, if_neg hp, if_neg h1, if_neg h2, if_neg h3]
  · unfold sendPromptToLLM
    rw [if_pos hk]

/-- Witness for C7 at the unrecognized provider value mistral: the
unknown-provider failure for both operations with good inputs, and the
credential error when the credential is empty. -/
theorem unknown_provider_handling_witness :
    validateApiKey "mistral" "sk-key" (FetchOutcome.throw JsError.nonError) =
      ({ success := false, message := some "Unknown provider", data := none }, [])
    ∧ sendPromptToLLM "mistral" "m" "sk-key" "Hi" (FetchOutcome.throw JsError.nonError) =
      ({ success := false, message := some "Unknown provider", data := none }, [])
    ∧ sendPromptToLLM "mistral" "m" "" "Hi" (FetchOutcome.throw JsError.nonError) =
      ({ success := false, message := some "API key is required", data := none }, []) :=
  ⟨(unknown_provider_handling "mistral" "m" "sk-key" "Hi"
      (FetchOutcome.throw JsError.nonError) (by decide) (by decide) (by decide)).1 (by decide),
   (unknown_provider_handling "mistral" "m" "sk-key" "Hi"
      (FetchOutcome.throw JsError.nonError) (by decide) (by decide) (by decide)).2.1
      (by decide) (by decide),
   (unknown_provider_handling "mistral" "m" "" "Hi"
      (FetchOutcome.throw JsError.nonError) (by decide) (by decide) (by decide)).2.2 (by decide)⟩

/-- C8: for the Anthropic provider with a non-empty key, validateApiKey
issues exactly one POST to the messages endpoint whose headers carry the
key in x-api-key (and no Authorization header) plus the fixed
anthropic-version, with the minimal probe body (haiku model, max_tokens 1,
a single trivial user message); a 2xx response yields success=true, and a
non-2xx response whose error detail extraction yields d gives
success=false with message "Invalid Anthropic API key: " followed by d. -/
theorem anthropic_validate_adapter (apiKey : String) (net : FetchOutcome)
    (hk : jsTrim apiKey ≠ "") :
    (validateApiKey "anthropic" apiKey net).2 =
      [{ url := "https://api.anthropic.com/v1/messages"
         method := "POST"
         headers := [("x-api-key", apiKey),
                     ("anthropic-version", "2023-06-01"),
                     ("Content-Type", "application/json")]
         body := some (JsValue.obj
           [("model", JsValue.str "claude-3-5-haiku-20241022"),
            ("max_tokens", JsValue.num 1),
            ("messages", JsValue.arr
              [JsValue.obj [("role", JsValue.str "user"),
                            ("content", JsValue.str "Hello")]])]) }]
    ∧ ((validateApiKey "anthropic" apiKey net).2.map
        (fun r => r.headers.lookup "Authorization")) = [none]
    ∧ ((validateApiKey "anthropic" apiKey net).2.map
        (fun r => r.headers.lookup "x-api-key")) = [some apiKey]
    ∧ (∀ json, net = .response true json →
        (validateApiKey "anthropic" apiKey net).1 =
          { success := true, message := some "Anthropic API key is valid", data := none })
    ∧ (∀ json d, net = .response false json → responseErrorDetail json = .ok d →
        (validateApiKey "anthropic" apiKey net).1 =
          { success := false, message := some ("Invalid Anthropic API key: " ++ d),
            data := none }) := by
  have hreq : (validateApiKey "anthropic" apiKey net).2 = [anthropicProbeRequest apiKey] := by
    rw [validateApiKey_anthropic_eq apiKey net hk]
    rcases net with e | ⟨ok, json⟩
    · rfl
    · dsimp only
      split
      · rfl
      · split <;> rfl
  refine ⟨hreq, ?_, ?_, ?_, ?_⟩
  · rw [hreq]; rfl
  · rw [hreq]; rfl
  · intro json hnet
    subst hnet
    rw [validateApiKey_anthropic_eq apiKey _ hk]
    dsimp only
    rw [if_pos rfl]
  · intro json d hnet hd
    subst hnet
    rw [validateApiKey_anthropic_eq apiKey _ hk]
    dsimp only
    rw [if_neg (by decide : ¬ false = true), hd]

/-- Witness for C8: the Anthropic probe request and the failure scenario
with detail "invalid x-api-key". -/
theorem anthropic_validate_adapter_witness :
    (validateApiKey "anthropic" "sk-ant" (FetchOutcome.response false
        (Except.ok (JsValue.obj
          [("error", JsValue.obj [("message", JsValue.str "invalid x-api-key")])])))).1 =
      { success := false, message := some "Invalid Anthropic API key: invalid x-api-key",
        data := none } :=
  (anthropic_validate_adapter "sk-ant"
      (FetchOutcome.response false (Except.ok (JsValue.obj
        [("error", JsValue.obj [("message", JsValue.str "invalid x-api-key")])])))
      (by decide)).2.2.2.2 _ "invalid x-api-key" rfl
    (by rw [responseErrorDetail_ok, errorBodyDetail_message_field,
          if_neg (by decide : ¬ "invalid x-api-key" = "")])

/-- C3: for the OpenAI provider with non-empty key and prompt, the
dispatcher issues exactly one POST to the chat-completions endpoint with
bearer authorization, the given model, a single user message holding the
raw prompt and temperature 0.7, and nothing else in the body (in
particular no output-length cap); on a 2xx response whose body decodes and
whose first-choice message content extraction yields v, the result is
success=true with data v; on non-2xx with error detail d, the result is
success=false with message "OpenAI API error: " followed by d. -/
theorem openai_dispatch_adapter (model apiKey prompt : String) (net : FetchOutcome)
    (hk : jsTrim apiKey ≠ "") (hp : jsTrim prompt ≠ "") :
    (sendPromptToLLM "openai" model apiKey prompt net).2 =
      [{ url := "https://api.openai.com/v1/chat/completions"
         method := "POST"
         headers := [("Authorization", "Bearer " ++ apiKey),
                     ("Content-Type", "application/json")]
         body := some (JsValue.obj
           [("model", JsValue.str model),
            ("messages", JsValue.arr
              [JsValue.obj [("role", JsValue.str "user"),
                            ("content", JsValue.str prompt)]]),
            ("temperature", JsValue.num (7 / 10))]) }]
    ∧ (∀ body v, net = .response true (Except.ok body) → openaiExtract body = .ok v →
        (sendPromptToLLM "openai" model apiKey prompt net).1 =
          { success := true, message := none, data := some v })
    ∧ (∀ json d, net = .response false json → responseErrorDetail json = .ok d →
        (sendPromptToLLM "openai" model apiKey prompt net).1 =
          { success := false, message := some ("OpenAI API error: " ++ d), data := none }) := by
  refine ⟨?_, ?_, ?_⟩
  · rw [sendPromptToLLM_openai_eq model apiKey prompt net hk hp]
    rcases net with e | ⟨ok, json⟩
    · rfl
    · dsimp only
      split
      · split <;> rfl
      · split <;> rfl
  · intro body v hnet hx
    subst hnet
    rw [sendPromptToLLM_openai_eq model apiKey prompt _ hk hp]
    dsimp only
    rw [if_pos rfl, except_ok_bind, hx]
  · intro json d hnet hd
    subst hnet
    rw [sendPromptToLLM_openai_eq model apiKey prompt _ hk hp]
    dsimp only
    rw [if_neg (by decide : ¬ false = true), hd]

/-- Witness for C3: round trip with prompt Hello, a first completion
choice whose message content is "Hi there", and the exact request issued. -/
theorem openai_dispatch_adapter_witness :
    (sendPromptToLLM "openai" "gpt-4o" "sk-key" "Hello"
        (FetchOutcome.response true (Except.ok (JsValue.obj
          [("choices", JsValue.arr
            [JsValue.obj [("message", JsValue.obj
              [("content", JsValue.str "Hi there")])]])])))).1 =
      { success := true, message := none, data := some (JsValue.str "Hi there") }
    ∧ (sendPromptToLLM "openai" "gpt-4o" "sk-key" "Hello"
        (FetchOutcome.response true (Except.ok (JsValue.obj
          [("choices", JsValue.arr
            [JsValue.obj [("message", JsValue.obj
              [("content", JsValue.str "Hi there")])]])])))).2 =
      [{ url := "https://api.openai.com/v1/chat/completions"
         method := "POST"
         headers := [("Authorization", "Bearer sk-key"),
                     ("Content-Type", "application/json")]
         body := some (JsValue.obj
           [("model", JsValue.str "gpt-4o"),
            ("messages", JsValue.arr
              [JsValue.obj [("role", JsValue.str "user"),
                            ("content", JsValue.str "Hello")]]),
            ("temperature", JsValue.num (7 / 10))]) }] :=
  ⟨(openai_dispatch_adapter "gpt-4o" "sk-key" "Hello"
      (FetchOutcome.response true (Except.ok (JsValue.obj
        [("choices", JsValue.arr
          [JsValue.obj [("message", JsValue.obj
            [("content", JsValue.str "Hi there")])]])])))
      (by decide) (by decide)).2.1 _ _ rfl rfl,
   (openai_dispatch_adapter "gpt-4o" "sk-key" "Hello"
      (FetchOutcome.response true (Except.ok (JsValue.obj
        [("choices", JsValue.arr
          [JsValue.obj [("message", JsValue.obj
            [("content", JsValue.str "Hi there")])]])])))
      (by decide) (by decide)).1⟩

/-- C4: for the Gemini provider with non-empty key and prompt, the
dispatcher issues exactly one POST to the model-specific generate-content
endpoint (model in the URL path, key as a query parameter) with a
contents/parts/text body around the raw prompt and a generationConfig of
temperature 0.7 and maxOutputTokens 1000; on a 2xx response whose body
decodes and whose candidates[0].content.parts[0].text extraction yields v,
the result is success=true with data v; on non-2xx with error detail d,
the result is success=false with message "Gemini API error: " followed by
d. -/
theorem gemini_dispatch_adapter (model apiKey prompt : String) (net : FetchOutcome)
    (hk : jsTrim apiKey ≠ "") (hp : jsTrim prompt ≠ "") :
    (sendPromptToLLM "gemini" model apiKey prompt net).2 =
      [{ url := "https://generativelanguage.googleapis.com/v1beta/models/" ++ model
                  ++ ":generateContent?key=" ++ apiKey
         method := "POST"
         headers := [("Content-Type", "application/json")]
         body := some (JsValue.obj
           [("contents", JsValue.arr
              [JsValue.obj [("parts", JsValue.arr
                [JsValue.obj [("text", JsValue.str prompt)]])]]),
            ("generationConfig", JsValue.obj
              [("temperature", JsValue.num (7 / 10)),
               ("maxOutputTokens", JsValue.num 1000)])]) }]
    ∧ (∀ body v, net = .response true (Except.ok body) → geminiExtract body = .ok v →
        (sendPromptToLLM "gemini" model apiKey prompt net).1 =
          { success := true, message := none, data := some v })
    ∧ (∀ json d, net = .response false json → responseErrorDetail json = .ok d →
        (sendPromptToLLM "gemini" model apiKey prompt net).1 =
          { success := false, message := some ("Gemini API error: " ++ d), data := none }) := by
  refine ⟨?_, ?_, ?_⟩
  · rw [sendPromptToLLM_gemini_eq model apiKey prompt net hk hp]
    rcases net with e | ⟨ok, json⟩
    · rfl
    · dsimp only
      split
      · split <;> rfl
      · split <;> rfl
  · intro body v hnet hx
    subst hnet
    rw [sendPromptToLLM_gemini_eq model apiKey prompt _ hk hp]
    dsimp only
    rw [if_pos rfl, except_ok_bind, hx]
  · intro json d hnet hd
    subst hnet
    rw [sendPromptToLLM_gemini_eq model apiKey prompt _ hk hp]
    dsimp only
    rw [if_neg (by decide : ¬ false = true), hd]

/-- Witness for C4: the extraction scenario of the claim, with body
candidates[0].content.parts[0].text = "hi there". -/
theorem gemini_dispatch_adapter_witness :
    (sendPromptToLLM "gemini" "gemini-pro" "sk-gem" "Hello"
        (FetchOutcome.response true (Except.ok (JsValue.obj
          [("candidates", JsValue.arr
            [JsValue.obj [("content", JsValue.obj
              [("parts", JsValue.arr
                [JsValue.obj [("text", JsValue.str "hi there")]])])]])])))).1 =
      { success := true, message := none, data := some (JsValue.str "hi there") } :=
  (gemini_dispatch_adapter "gemini-pro" "sk-gem" "Hello"
      (FetchOutcome.response true (Except.ok (JsValue.obj
        [("candidates", JsValue.arr
          [JsValue.obj [("content", JsValue.obj
            [("parts", JsValue.arr
              [JsValue.obj [("text", JsValue.str "hi there")]])])]])])))
      (by decide) (by decide)).2.1 _ _ rfl rfl

/-- C2 counterexample: on a non-2xx Anthropic validation response whose
body is an error object whose message field is present but the empty
string, the code falls back to "Unknown error" instead of interpolating
the present field, so the resulting message differs from the
"Invalid Anthropic API key: " the claim predicts for a present field. -/
theorem validate_detail_presence_counterexample :
    (validateApiKey "anthropic" "sk-present" (FetchOutcome.response false
        (Except.ok (JsValue.obj
          [("error", JsValue.obj [("message", JsValue.str "")])])))).1.message =
      some "Invalid Anthropic API key: Unknown error"
    ∧ (validateApiKey "anthropic" "sk-present" (FetchOutcome.response false
        (Except.ok (JsValue.obj
          [("error", JsValue.obj [("message", JsValue.str "")])])))).1.message ≠
      some "Invalid Anthropic API key: " := by
  have heval : (validateApiKey "anthropic" "sk-present" (FetchOutcome.response false
      (Except.ok (JsValue.obj
        [("error", JsValue.obj [("message", JsValue.str "")])])))).1.message =
      some "Invalid Anthropic API key: Unknown error" := rfl
  refine ⟨heval, ?_⟩
  intro hc
  rw [heval] at hc
  exact absurd (Option.some.inj hc) (by decide)

/-- C2 (amended): on a non-2xx validation response, the failure message is
"Invalid <Provider> API key: <detail>", where detail is the error.message
field of the parsed error body when that field is present and truthy (in
particular a non-empty string) and "Unknown error" otherwise — including
when the field is present but empty. -/
theorem validate_invalid_key_detail (provider name apiKey m : String)
    (hpn : (provider, name) ∈
      [("openai", "OpenAI"), ("anthropic", "Anthropic"), ("gemini", "Gemini")])
    (hk : jsTrim apiKey ≠ "") :
    (∀ json d, responseErrorDetail json = .ok d →
      (validateApiKey provider apiKey (.response false json)).1 =
        { success := false, message := some ("Invalid " ++ name ++ " API key: " ++ d),
          data := none })
    ∧ (m ≠ "" →
      (validateApiKey provider apiKey (.response false (Except.ok (JsValue.obj
          [("error", JsValue.obj [("message", JsValue.str m)])])))).1 =
        { success := false, message := some ("Invalid " ++ name ++ " API key: " ++ m),
          data := none })
    ∧ ((validateApiKey provider apiKey (.response false (Except.ok (JsValue.obj
          [("error", JsValue.obj [("message", JsValue.str "")])])))).1 =
        { success := false,
          message := some ("Invalid " ++ name ++ " API key: " ++ "Unknown error"),
          data := none })
    ∧ ((validateApiKey provider apiKey (.response false (Except.ok (JsValue.obj
          [("error", JsValue.obj [])])))).1 =
        { success := false,
          message := some ("Invalid " ++ name ++ " API key: " ++ "Unknown error"),
          data := none }) := by
  have hgen : ∀ json d, responseErrorDetail json = .ok d →
      (validateApiKey provider apiKey (.response false json)).1 =
        { success := false, message := some ("Invalid " ++ name ++ " API key: " ++ d),
          data := none } := by
    intro json d hd
    simp only [List.mem_cons, List.not_mem_nil, or_false] at hpn
    rcases hpn with h | h | h <;>
      (rw [Prod.mk.injEq] at h; obtain ⟨h1, h2⟩ := h; subst h1; subst h2)
    · rw [validateApiKey_openai_eq apiKey _ hk]
      dsimp only
      rw [if_neg (by decide : ¬ false = true), hd]
      rfl
    · rw [validateApiKey_anthropic_eq apiKey _ hk]
      dsimp only
      rw [if_neg (by decide : ¬ false = true), hd]
      rfl
    · rw [validateApiKey_gemini_eq apiKey _ hk]
      dsimp only
      rw [if_neg (by decide : ¬ false = true), hd]
      rfl
  refine ⟨hgen, fun hm => ?_, ?_, ?_⟩
  · exact hgen _ m
      (by rw [responseErrorDetail_ok, errorBodyDetail_message_field, if_neg hm])
  · exact hgen _ "Unknown error"
      (by rw [responseErrorDetail_ok, errorBodyDetail_message_field,
            if_pos (rfl : ("" : String) = "")])
  · exact hgen _ "Unknown error"
      (by rw [responseErrorDetail_ok, errorBodyDetail_message_absent])

/-- Witness for the amended C2: the Anthropic failure scenario of the
claim yields exactly "Invalid Anthropic API key: invalid x-api-key". -/
theorem validate_invalid_key_detail_witness :
    (validateApiKey "anthropic" "sk-ant-w" (FetchOutcome.response false
        (Except.ok (JsValue.obj
          [("error", JsValue.obj [("message", JsValue.str "invalid x-api-key")])])))).1 =
      { success := false, message := some "Invalid Anthropic API key: invalid x-api-key",
        data := none } :=
  (validate_invalid_key_detail "anthropic" "Anthropic" "sk-ant-w" "invalid x-api-key"
      (by simp) (by decide)).2.1 (by decide)

/-- C1: for each recognized provider and non-empty inputs, every internal
exception is normalized at the try/catch boundary into success=false with
the fixed prefix and a detail that is the exception message for an Error
and "Unknown error" for a thrown non-Error: this covers fetch itself
throwing (both operations), a response body that fails to decode (the
validator reads the body on non-2xx, the dispatcher on both 2xx and
non-2xx), and a 2xx dispatcher body lacking the expected fields (the
field access throws a TypeError, whose message becomes the detail).  No
branch escapes without producing an ApiResponse. -/
theorem tryCatch_normalization (provider model apiKey prompt : String) (e : JsError)
    (hprov : provider = "openai" ∨ provider = "anthropic" ∨ provider = "gemini")
    (hk : jsTrim apiKey ≠ "") (hp : jsTrim prompt ≠ "") :
    ((validateApiKey provider apiKey (.throw e)).1 =
      { success := false,
        message := some ("Error validating API key: " ++
          (match e with | .error msg => msg | .nonError => "Unknown error")),
        data := none })
    ∧ ((sendPromptToLLM provider model apiKey prompt (.throw e)).1 =
      { success := false,
        message := some ("Error sending prompt: " ++
          (match e with | .error msg => msg | .nonError => "Unknown error")),
        data := none })
    ∧ ((validateApiKey provider apiKey (.response false (Except.error e))).1 =
      { success := false,
        message := some ("Error validating API key: " ++
          (match e with | .error msg => msg | .nonError => "Unknown error")),
        data := none })
    ∧ (∀ ok : Bool,
      (sendPromptToLLM provider model apiKey prompt (.response ok (Except.error e))).1 =
      { success := false,
        message := some ("Error sending prompt: " ++
          (match e with | .error msg => msg | .nonError => "Unknown error")),
        data := none })
    ∧ ((sendPromptToLLM provider model apiKey prompt
          (.response true (Except.ok (JsValue.obj [])))).1 =
      { success := false,
        message := some "Error sending prompt: Cannot read properties of undefined",
        data := none })
    ∧ ((sendPromptToLLM provider model apiKey prompt
          (.response true (Except.ok JsValue.null))).1 =
      { success := false,
        message := some "Error sending prompt: Cannot read properties of null",
        data := none }) := by
  rcases hprov with h | h | h <;> subst h
  · refine ⟨?_, ?_, ?_, ?_, ?_, ?_⟩
    · rw [validateApiKey_openai_eq apiKey _ hk]
      cases e <;> rfl
    · rw [sendPromptToLLM_openai_eq model apiKey prompt _ hk hp]
      cases e <;> rfl
    · rw [validateApiKey_openai_eq apiKey _ hk]
      dsimp only
      rw [if_neg (by decide : ¬ false = true)]
      cases e <;> rfl
    · intro ok
      rw [sendPromptToLLM_openai_eq model apiKey prompt _ hk hp]
      dsimp only
      cases ok
      · rw [if_neg (by decide : ¬ false = true)]
        cases e <;> rfl
      · rw [if_pos rfl]
        cases e <;> rfl
    · rw [sendPromptToLLM_openai_eq model apiKey prompt _ hk hp]
      dsimp only
      rw [if_pos rfl]
      rfl
    · rw [sendPromptToLLM_openai_eq model apiKey prompt _ hk hp]
      dsimp only
      rw [if_pos rfl]
      rfl
  · refine ⟨?_, ?_, ?_, ?_, ?_, ?_⟩
    · rw [validateApiKey_anthropic_eq apiKey _ hk]
      cases e <;> rfl
    · rw [sendPromptToLLM_anthropic_eq model apiKey prompt _ hk hp]
      cases e <;> rfl
    · rw [validateApiKey_anthropic_eq apiKey _ hk]
      dsimp only
      rw [if_neg (by decide : ¬ false = true)]
      cases e <;> rfl
    · intro ok
      rw [sendPromptToLLM_anthropic_eq model apiKey prompt _ hk hp]
      dsimp only
      cases ok
      · rw [if_neg (by decide : ¬ false = true)]
        cases e <;> rfl
      · rw [if_pos rfl]
        cases e <;> rfl
    · rw [sendPromptToLLM_anthropic_eq model apiKey prompt _ hk hp]
      dsimp only
      rw [if_pos rfl]
      rfl
    · rw [sendPromptToLLM_anthropic_eq model apiKey prompt _ hk hp]
      dsimp only
      rw [if_pos rfl]
      rfl
  · refine ⟨?_, ?_, ?_, ?_, ?_, ?_⟩
    · rw [validateApiKey_gemini_eq apiKey _ hk]
      cases e <;> rfl
    · rw [sendPromptToLLM_gemini_eq model apiKey prompt _ hk hp]
      cases e <;> rfl
    · rw [validateApiKey_gemini_eq apiKey _ hk]
      dsimp only
      rw [if_neg (by decide : ¬ false = true)]
      cases e <;> rfl
    · intro ok
      rw [sendPromptToLLM_gemini_eq model apiKey prompt _ hk hp]
      dsimp only
      cases ok
      · rw [if_neg (by decide : ¬ false = true)]
        cases e <;> rfl
      · rw [if_pos rfl]
        cases e <;> rfl
    · rw [sendPromptToLLM_gemini_eq model apiKey prompt _ hk hp]
      dsimp only
      rw [if_pos rfl]
      rfl
    · rw [sendPromptToLLM_gemini_eq model apiKey prompt _ hk hp]
      dsimp only
      rw [if_pos rfl]
      rfl

/-- Witness for C1: a fetch that throws an Error with message
"Failed to fetch" is normalized by both operations. -/
theorem tryCatch_normalization_witness :
    (validateApiKey "openai" "sk-w1" (FetchOutcome.throw
        (JsError.error "Failed to fetch"))).1 =
      { success := false, message := some "Error validating API key: Failed to fetch",
        data := none }
    ∧ (sendPromptToLLM "openai" "gpt-4" "sk-w1" "Hi" (FetchOutcome.throw
        (JsError.error "Failed to fetch"))).1 =
      { success := false, message := some "Error sending prompt: Failed to fetch",
        data := none } :=
  ⟨(tryCatch_normalization "openai" "gpt-4" "sk-w1" "Hi" (JsError.error "Failed to fetch")
      (Or.inl rfl) (by decide) (by decide)).1,
   (tryCatch_normalization "openai" "gpt-4" "sk-w1" "Hi" (JsError.error "Failed to fetch")
      (Or.inl rfl) (by decide) (by decide)).2.1⟩

/-- C9: each operation is a pure function of its arguments and of the
behaviour of its network call: two invocations with identical arguments
that see identical network behaviour return identical results (the
embedding is a total function of exactly these inputs, reflecting that the
source reads and writes no module-level mutable state). -/
theorem stateless_determinism
    (provider model apiKey prompt provider2 model2 apiKey2 prompt2 : String)
    (net net2 : FetchOutcome)
    (h1 : provider = provider2) (h2 : model = model2) (h3 : apiKey = apiKey2)
    (h4 : prompt = prompt2) (h5 : net = net2) :
    validateApiKey provider apiKey net = validateApiKey provider2 apiKey2 net2
    ∧ sendPromptToLLM provider model apiKey prompt net =
        sendPromptToLLM provider2 model2 apiKey2 prompt2 net2 := by
  subst h1; subst h2; subst h3; subst h4; subst h5
  exact ⟨rfl, rfl⟩

/-- Witness for C9 at concrete equal invocations. -/
theorem stateless_determinism_witness :
    validateApiKey "openai" "sk-w2" (FetchOutcome.throw JsError.nonError) =
      validateApiKey "openai" "sk-w2" (FetchOutcome.throw JsError.nonError)
    ∧ sendPromptToLLM "openai" "gpt-4" "sk-w2" "Hi" (FetchOutcome.throw JsError.nonError) =
      sendPromptToLLM "openai" "gpt-4" "sk-w2" "Hi" (FetchOutcome.throw JsError.nonError) :=
  stateless_determinism "openai" "gpt-4" "sk-w2" "Hi" "openai" "gpt-4" "sk-w2" "Hi"
    (FetchOutcome.throw JsError.nonError) (FetchOutcome.throw JsError.nonError)
    rfl rfl rfl rfl rfl

/-- Every validator result, on every path, carries no data payload and a
non-empty message. -/
theorem validateApiKey_shape (provider apiKey : String) (net : FetchOutcome) :
    (validateApiKey provider apiKey net).1.data = none
    ∧ ∃ msg, (validateApiKey provider apiKey net).1.message = some msg ∧ msg ≠ "" := by
  unfold validateApiKey
  repeat' (first | split | dsimp only)
  all_goals first
    | exact ⟨rfl, _, rfl, by decide⟩
    | exact ⟨rfl, _, rfl, append_left_ne_empty _ _ (by decide)⟩

/-- Every dispatcher result is either a success carrying a data payload
and no message, or a failure carrying no data and a non-empty message. -/
theorem sendPromptToLLM_shape (provider model apiKey prompt : String) (net : FetchOutcome) :
    ((sendPromptToLLM provider model apiKey prompt net).1.success = true
      ∧ (sendPromptToLLM provider model apiKey prompt net).1.message = none
      ∧ ∃ v, (sendPromptToLLM provider model apiKey prompt net).1.data = some v)
    ∨ ((sendPromptToLLM provider model apiKey prompt net).1.success = false
      ∧ (sendPromptToLLM provider model apiKey prompt net).1.data = none
      ∧ ∃ msg, (sendPromptToLLM provider model apiKey prompt net).1.message = some msg
          ∧ msg ≠ "") := by
  unfold sendPromptToLLM
  repeat' (first | split | dsimp only)
  all_goals first
    | exact Or.inl ⟨rfl, rfl, _, rfl⟩
    | exact Or.inr ⟨rfl, rfl, _, rfl, by decide⟩
    | exact Or.inr ⟨rfl, rfl, _, rfl, append_left_ne_empty _ _ (by decide)⟩

/-- C10: result-shape invariant of every return path: a failing result of
either operation has a defined non-empty message and no data; a
successful validator result has a defined non-empty message and no data;
a successful dispatcher result has a data payload and no message. -/
theorem result_shape_invariant (provider model apiKey prompt : String)
    (net net2 : FetchOutcome) :
    (((validateApiKey provider apiKey net).1.success = false →
        (validateApiKey provider apiKey net).1.data = none
        ∧ ∃ msg, (validateApiKey provider apiKey net).1.message = some msg ∧ msg ≠ "")
      ∧ ((validateApiKey provider apiKey net).1.success = true →
        (validateApiKey provider apiKey net).1.data = none
        ∧ ∃ msg, (validateApiKey provider apiKey net).1.message = some msg ∧ msg ≠ ""))
    ∧ (((sendPromptToLLM provider model apiKey prompt net2).1.success = false →
        (sendPromptToLLM provider model apiKey prompt net2).1.data = none
        ∧ ∃ msg, (sendPromptToLLM provider model apiKey prompt net2).1.message = some msg
            ∧ msg ≠ "")
      ∧ ((sendPromptToLLM provider model apiKey prompt net2).1.success = true →
        (sendPromptToLLM provider model apiKey prompt net2).1.message = none
        ∧ ∃ v, (sendPromptToLLM provider model apiKey prompt net2).1.data = some v)) := by
  obtain ⟨hd, msg, hmsg, hne⟩ := validateApiKey_shape provider apiKey net
  refine ⟨⟨fun _ => ⟨hd, msg, hmsg, hne⟩, fun _ => ⟨hd, msg, hmsg, hne⟩⟩, ?_, ?_⟩
  · intro h
    rcases sendPromptToLLM_shape provider model apiKey prompt net2 with
      ⟨hs, _, _⟩ | ⟨_, hdta, m2, hm2, hne2⟩
    · rw [h] at hs
      exact absurd hs (by decide)
    · exact ⟨hdta, m2, hm2, hne2⟩
  · intro h
    rcases sendPromptToLLM_shape provider model apiKey prompt net2 with
      ⟨_, hm, v, hv⟩ | ⟨hs, _, _⟩
    · exact ⟨hm, v, hv⟩
    · rw [h] at hs
      exact absurd hs (by decide)

/-- Witness for C10: a failing validator call (unknown provider) and a
successful dispatcher call (Anthropic, well-formed body). -/
theorem result_shape_invariant_witness :
    ((validateApiKey "mistral" "sk-w3" (FetchOutcome.throw JsError.nonError)).1.data = none
      ∧ ∃ msg, (validateApiKey "mistral" "sk-w3"
          (FetchOutcome.throw JsError.nonError)).1.message = some msg ∧ msg ≠ "")
    ∧ ((sendPromptToLLM "anthropic" "claude-3" "sk-w3" "Hi"
          (FetchOutcome.response true (Except.ok (JsValue.obj
            [("content", JsValue.arr
              [JsValue.obj [("text", JsValue.str "Hey")]])])))).1.message = none
      ∧ ∃ v, (sendPromptToLLM "anthropic" "claude-3" "sk-w3" "Hi"
          (FetchOutcome.response true (Except.ok (JsValue.obj
            [("content", JsValue.arr
              [JsValue.obj [("text", JsValue.str "Hey")]])])))).1.data = some v) :=
  ⟨(result_shape_invariant "mistral" "m" "sk-w3" "Hi"
      (FetchOutcome.throw JsError.nonError) (FetchOutcome.throw JsError.nonError)).1.1 rfl,
   (result_shape_invariant "anthropic" "claude-3" "sk-w3" "Hi"
      (FetchOutcome.throw JsError.nonError)
      (FetchOutcome.response true (Except.ok (JsValue.obj
        [("content", JsValue.arr
          [JsValue.obj [("text", JsValue.str "Hey")]])])))).2.2 rfl⟩

end LlmApi
